import Mathlib

/-!
# Verification of the whealthy simulation and tax engine

A shallow embedding, over `ℚ`, of the core of the repository:

* `src/lib/tax.ts` — the jurisdiction-dispatching tax engine
  (`computeHoldingCompanyTaxes`, `computeLiquidHoldingCompanyTaxes` and the
  helpers they call);
* `src/lib/simulation.ts` — the allocation normalizer, the cashflow
  aggregators, the private-commitment scheduler, the deterministic year-by-year
  simulator, the Monte Carlo wrapper and the reverse binary-search solver.

JavaScript numbers are modelled as rationals; arrays as lists; the mutable
year loop as a fuel-indexed recursion that carries the simulator state
explicitly.  The Monte Carlo engine's ambient randomness (`Math.random` via
`boxMuller`) is replaced by an explicit stream of per-path standard-normal
draws, so every theorem about it quantifies over all possible draws.
`simulateDeterministic` in the source first merges its input with
`DEFAULT_PARAMS`; the embedding takes the already-merged, complete parameter
record (the merge is the identity on complete records).
-/

namespace Whealthy

/-- A {public, private, cash} triple (allocation weights, returns or
volatilities).  The source field `private` is a reserved word in Lean, so it
is named `priv` here. -/
structure Triple where
  public : ℚ
  priv : ℚ
  cash : ℚ
  deriving DecidableEq

/-- Guardrails spending sub-record. -/
structure Guardrails where
  targetPctWealth : ℚ
  minChange : ℚ
  maxChange : ℚ
  deriving DecidableEq

/-- `taxJurisdiction` ∈ {custom, germany, us, germany-us}. -/
inductive TaxJurisdiction where
  | custom
  | germany
  | us
  | germanyUS
  deriving DecidableEq

/-- Declared source of public dividend income. -/
inductive DividendSource where
  | germany
  | us
  | other
  deriving DecidableEq

/-- `spendingRule` ∈ {fixed, %wealth, guardrails}. -/
inductive SpendingRule where
  | fixed
  | pctWealth
  | guardrails
  deriving DecidableEq

/-- `philanthropyMode` ∈ {fixed, %wealth}. -/
inductive PhilanthropyMode where
  | fixed
  | pctWealth
  deriving DecidableEq

/-- Holding company structure sub-record (types.ts). -/
structure HoldingCompanyStructure where
  publicDividendSource : DividendSource
  privateDividendSource : DividendSource
  usOwnershipPct : ℚ
  germanOwnershipPct : ℚ
  isVermoegensverwaltend : Bool
  germanTradeTaxRate : ℚ
  usCorporateTaxRate : ℚ
  deriving DecidableEq

/-- `PrivateCommitments` record (types.ts). -/
structure PrivateCommitments where
  enabled : Bool
  totalCommitment : ℚ
  callYears : ℕ
  distLagYears : ℕ
  distYears : ℕ
  distMultiple : ℚ
  deriving DecidableEq

/-- One-off cash event (id and label do not affect the engine and are
omitted). -/
structure CashEvent where
  year : ℕ
  amount : ℚ
  deriving DecidableEq

/-- The scenario parameter record (types.ts `Params`), restricted to the
fields the simulation and tax engine read. -/
structure Params where
  startWealth : ℚ
  liquidShare : ℚ
  currentAge : ℕ
  deathAge : ℕ
  spendingRule : SpendingRule
  annualExpenseNow : ℚ
  expenseInflation : ℚ
  spendPctWealth : ℚ
  guardrails : Guardrails
  philanthropyMode : PhilanthropyMode
  philanthropyFixedNow : ℚ
  philanthropyPercent : ℚ
  desiredTerminalWealth : ℚ
  lifetimeSpendingTotal : ℚ
  realMode : Bool
  taxJurisdiction : TaxJurisdiction
  taxInterest : ℚ
  taxDividends : ℚ
  taxRealizedGains : ℚ
  holdingCompanyStructure : HoldingCompanyStructure
  assetAlloc : Triple
  assetReturn : Triple
  assetVol : Triple
  publicDivYield : ℚ
  publicRealizationRate : ℚ
  privateRealizationRate : ℚ
  privCommit : PrivateCommitments
  numPaths : ℕ
  oneOffs : List CashEvent
  deriving DecidableEq

/-! ## Tax engine (src/lib/tax.ts) -/

/-- Körperschaftsteuer: 15%. -/
def GERMAN_CORPORATE_TAX_RATE : ℚ := 0.15

/-- Solidaritätszuschlag: 5.5% of corporate tax. -/
def GERMAN_SOLIDARITY_SURCHARGE : ℚ := 0.055

/-- 95% of qualifying dividends are exempt. -/
def GERMAN_DIVIDEND_EXEMPTION_RATE : ℚ := 0.95

/-- 10% minimum ownership for the corporate-tax exemption. -/
def GERMAN_MIN_OWNERSHIP_FOR_EXEMPTION : ℚ := 0.10

/-- 15% minimum ownership for the trade-tax exemption. -/
def GERMAN_MIN_OWNERSHIP_FOR_TRADE_TAX_EXEMPTION : ℚ := 0.15

/-- US federal corporate tax: 21%. -/
def US_CORPORATE_TAX_RATE : ℚ := 0.21

/-- 30% standard US dividend withholding. -/
def US_DIVIDEND_WITHHOLDING_STANDARD : ℚ := 0.30

/-- 5% withholding if ownership ≥ 10%. -/
def US_DIVIDEND_WITHHOLDING_TREATY_10PCT : ℚ := 0.05

/-- 0% withholding if ownership ≥ 80%. -/
def US_DIVIDEND_WITHHOLDING_TREATY_80PCT : ℚ := 0.00

/-- 10% ownership threshold for 5% withholding. -/
def US_MIN_OWNERSHIP_FOR_5PCT : ℚ := 0.10

/-- 80% ownership threshold for 0% withholding. -/
def US_MIN_OWNERSHIP_FOR_0PCT : ℚ := 0.80

/-- tax.ts `calculateGermanCorporateTaxRate`: corporate tax + solidarity
surcharge + trade tax (the latter zero for Vermögensverwaltende
Gesellschaften). -/
def calculateGermanCorporateTaxRate (tradeTaxRate : ℚ)
    (isVermoegensverwaltend : Bool) : ℚ :=
  let corporateTax := GERMAN_CORPORATE_TAX_RATE
  let solidaritySurcharge := GERMAN_CORPORATE_TAX_RATE * GERMAN_SOLIDARITY_SURCHARGE
  let tradeTax := if isVermoegensverwaltend then 0 else tradeTaxRate
  corporateTax + solidaritySurcharge + tradeTax

/-- tax.ts `calculateUSDividendWithholdingTax`. -/
def calculateUSDividendWithholdingTax (ownershipPct : ℚ) : ℚ :=
  if US_MIN_OWNERSHIP_FOR_0PCT ≤ ownershipPct then
    US_DIVIDEND_WITHHOLDING_TREATY_80PCT
  else if US_MIN_OWNERSHIP_FOR_5PCT ≤ ownershipPct then
    US_DIVIDEND_WITHHOLDING_TREATY_10PCT
  else
    US_DIVIDEND_WITHHOLDING_STANDARD

/-- tax.ts `calculateGermanDividendTax`: 95% exemption when ownership ≥ 10%;
inside the exempt branch the trade tax (for non-asset-managing entities)
falls on the 5% taxable portion when ownership ≥ 15%, on the full dividend
otherwise. -/
def calculateGermanDividendTax (dividendAmount ownershipPct tradeTaxRate : ℚ)
    (isVermoegensverwaltend : Bool) : ℚ :=
  if ownershipPct < GERMAN_MIN_OWNERSHIP_FOR_EXEMPTION then
    dividendAmount * calculateGermanCorporateTaxRate tradeTaxRate isVermoegensverwaltend
  else
    let taxableDividend := dividendAmount * (1 - GERMAN_DIVIDEND_EXEMPTION_RATE)
    let corporateTax := taxableDividend * GERMAN_CORPORATE_TAX_RATE
    let solidaritySurcharge := corporateTax * GERMAN_SOLIDARITY_SURCHARGE
    let tradeTax :=
      if isVermoegensverwaltend then 0
      else if GERMAN_MIN_OWNERSHIP_FOR_TRADE_TAX_EXEMPTION ≤ ownershipPct then
        taxableDividend * tradeTaxRate
      else
        dividendAmount * tradeTaxRate
    corporateTax + solidaritySurcharge + tradeTax

/-- The trade-tax summand of `calculateGermanDividendTax` in its
exemption branch (tax.ts lines 87–92, the local `tradeTax`). -/
def germanDividendTradeTaxPart (dividendAmount ownershipPct tradeTaxRate : ℚ)
    (isVermoegensverwaltend : Bool) : ℚ :=
  if isVermoegensverwaltend then 0
  else if GERMAN_MIN_OWNERSHIP_FOR_TRADE_TAX_EXEMPTION ≤ ownershipPct then
    dividendAmount * (1 - GERMAN_DIVIDEND_EXEMPTION_RATE) * tradeTaxRate
  else
    dividendAmount * tradeTaxRate

/-- tax.ts `computeCustomTaxes` (flat-rate "custom" jurisdiction). -/
def computeCustomTaxes (params : Params) (baseForReturn : ℚ) (allocation : Triple)
    (publicDivYield publicRealized cashReturn privateRealized : ℚ) : ℚ :=
  let publicBase := baseForReturn * allocation.public
  let cashBase := baseForReturn * allocation.cash
  let privateBase := baseForReturn * allocation.priv
  let taxOnDiv := publicBase * publicDivYield * params.taxDividends
  let taxOnPublicRealized := publicBase * publicRealized * params.taxRealizedGains
  let taxOnCash := cashBase * cashReturn * params.taxInterest
  let taxOnPrivate := privateBase * privateRealized * params.taxRealizedGains
  max 0 (taxOnDiv + taxOnPublicRealized + taxOnCash + taxOnPrivate)

/-- tax.ts `computeHoldingCompanyTaxes`: the full-portfolio entry point. -/
def computeHoldingCompanyTaxes (params : Params) (baseForReturn : ℚ)
    (allocation : Triple)
    (publicDivYield publicRealized cashReturn privateRealized : ℚ) : ℚ :=
  if params.taxJurisdiction = .custom then
    computeCustomTaxes params baseForReturn allocation
      publicDivYield publicRealized cashReturn privateRealized
  else
    let publicBase := baseForReturn * allocation.public
    let cashBase := baseForReturn * allocation.cash
    let privateBase := baseForReturn * allocation.priv
    let holding := params.holdingCompanyStructure
    let publicDividendIncome := publicBase * publicDivYield
    let interestIncome := cashBase * cashReturn
    let publicRealizedGains := publicBase * publicRealized
    let privateRealizedGains := privateBase * privateRealized
    let totalTax :=
      if params.taxJurisdiction = .germany ∨ params.taxJurisdiction = .germanyUS then
        let publicDividendTax := calculateGermanDividendTax publicDividendIncome
          holding.germanOwnershipPct holding.germanTradeTaxRate
          holding.isVermoegensverwaltend
        let effectiveGermanRate := calculateGermanCorporateTaxRate
          holding.germanTradeTaxRate holding.isVermoegensverwaltend
        let interestTax := interestIncome * effectiveGermanRate
        let publicGainsTax := publicRealizedGains * effectiveGermanRate
        let privateGainsTax := privateRealizedGains * effectiveGermanRate
        let germanTax := publicDividendTax + interestTax + publicGainsTax + privateGainsTax
        if params.taxJurisdiction = .germanyUS ∧ holding.publicDividendSource = .us then
          germanTax + publicDividendIncome *
            calculateUSDividendWithholdingTax holding.usOwnershipPct
        else
          germanTax
      else if params.taxJurisdiction = .us then
        (publicDividendIncome + interestIncome + publicRealizedGains +
          privateRealizedGains) * holding.usCorporateTaxRate
      else
        0
    max 0 totalTax

/-- tax.ts `computeLiquidCustomTaxes`. -/
def computeLiquidCustomTaxes (params : Params) (baseForReturn : ℚ)
    (allocation : Triple) (publicDivYield publicRealized cashReturn : ℚ) : ℚ :=
  let publicBase := baseForReturn * allocation.public
  let cashBase := baseForReturn * allocation.cash
  let taxOnDiv := publicBase * publicDivYield * params.taxDividends
  let taxOnPublicRealized := publicBase * publicRealized * params.taxRealizedGains
  let taxOnCash := cashBase * cashReturn * params.taxInterest
  max 0 (taxOnDiv + taxOnPublicRealized + taxOnCash)

/-- tax.ts `computeLiquidHoldingCompanyTaxes`: taxes on the liquid
(public + cash) buckets only. -/
def computeLiquidHoldingCompanyTaxes (params : Params) (baseForReturn : ℚ)
    (allocation : Triple) (publicDivYield publicRealized cashReturn : ℚ) : ℚ :=
  if params.taxJurisdiction = .custom then
    computeLiquidCustomTaxes params baseForReturn allocation
      publicDivYield publicRealized cashReturn
  else
    let publicBase := baseForReturn * allocation.public
    let cashBase := baseForReturn * allocation.cash
    let holding := params.holdingCompanyStructure
    let publicDividendIncome := publicBase * publicDivYield
    let interestIncome := cashBase * cashReturn
    let publicRealizedGains := publicBase * publicRealized
    let totalTax :=
      if params.taxJurisdiction = .germany ∨ params.taxJurisdiction = .germanyUS then
        let publicDividendTax := calculateGermanDividendTax publicDividendIncome
          holding.germanOwnershipPct holding.germanTradeTaxRate
          holding.isVermoegensverwaltend
        let effectiveGermanRate := calculateGermanCorporateTaxRate
          holding.germanTradeTaxRate holding.isVermoegensverwaltend
        let interestTax := interestIncome * effectiveGermanRate
        let publicGainsTax := publicRealizedGains * effectiveGermanRate
        let germanTax := publicDividendTax + interestTax + publicGainsTax
        if params.taxJurisdiction = .germanyUS ∧ holding.publicDividendSource = .us then
          germanTax + publicDividendIncome *
            calculateUSDividendWithholdingTax holding.usOwnershipPct
        else
          germanTax
      else if params.taxJurisdiction = .us then
        (publicDividendIncome + interestIncome + publicRealizedGains) *
          holding.usCorporateTaxRate
      else
        0
    max 0 totalTax

/-! ## Simulation engine (src/lib/simulation.ts) -/

/-- simulation.ts `MAX_MONTE_CARLO_PATHS`. -/
def MAX_MONTE_CARLO_PATHS : ℕ := 2000

/-- simulation.ts `clamp(value, min, max)` = `Math.max(min, Math.min(max, value))`. -/
def clamp (value mn mx : ℚ) : ℚ := max mn (min mx value)

/-- simulation.ts `normalizeAllocation`: rescale the triple to sum to 1,
returning the input unchanged when the sum is exactly 0. -/
def normalizeAllocation (alloc : Triple) : Triple :=
  let total := alloc.public + alloc.priv + alloc.cash
  if total = 0 then alloc
  else
    { public := alloc.public / total
      priv := alloc.priv / total
      cash := alloc.cash / total }

/-- simulation.ts `weightedAverage`. -/
def weightedAverage (weights values : Triple) : ℚ :=
  weights.public * values.public + weights.priv * values.priv +
    weights.cash * values.cash

/-- simulation.ts `generatePrivateSchedules`: per-year capital-call and
distribution arrays of length `years + 1`.  JavaScript's
`years + 1 - distLagYears` may be negative where the ℕ subtraction
truncates at 0, but both are then mapped to 1 by the enclosing
`max(1, min(distYears, ·))`, so the clamped value agrees. -/
def generatePrivateSchedules (privCommit : PrivateCommitments) (years : ℕ) :
    List ℚ × List ℚ :=
  if privCommit.enabled = false ∨ privCommit.totalCommitment ≤ 0 then
    (List.replicate (years + 1) 0, List.replicate (years + 1) 0)
  else
    let effectiveCallYears := min privCommit.callYears (years + 1)
    let callPerYear := privCommit.totalCommitment / (max effectiveCallYears 1 : ℕ)
    let calls := (List.range (years + 1)).map
      (fun year => if year < effectiveCallYears then callPerYear else 0)
    let totalCalled := callPerYear * (effectiveCallYears : ℚ)
    let totalReturn := totalCalled * privCommit.distMultiple
    let distYears := max 1 (min privCommit.distYears (years + 1 - privCommit.distLagYears))
    let distPerYear := totalReturn / (distYears : ℚ)
    let start := privCommit.distLagYears
    let finalYear := min (start + distYears) (years + 1)
    let distributions := (List.range (years + 1)).map
      (fun y => if start ≤ y ∧ y < finalYear then distPerYear else 0)
    (calls, distributions)

/-- simulation.ts `computeSpending`. -/
def computeSpending (params : Params) (wealth : ℚ) (yearIndex : ℕ)
    (lastYearSpend : ℚ) : ℚ :=
  match params.spendingRule with
  | .pctWealth => params.spendPctWealth * wealth
  | .guardrails =>
      let target := params.guardrails.targetPctWealth * wealth
      let inflation := if params.realMode then 0 else params.expenseInflation
      let minSpend := lastYearSpend * (1 + inflation + params.guardrails.minChange)
      let maxSpend := lastYearSpend * (1 + inflation + params.guardrails.maxChange)
      clamp target (min minSpend maxSpend) (max minSpend maxSpend)
  | .fixed =>
      let inflation := if params.realMode then 0 else params.expenseInflation
      params.annualExpenseNow * (1 + inflation) ^ yearIndex

/-- simulation.ts `computePhilanthropy`. -/
def computePhilanthropy (params : Params) (wealth : ℚ) (yearIndex : ℕ) : ℚ :=
  match params.philanthropyMode with
  | .pctWealth => params.philanthropyPercent * wealth
  | .fixed =>
      let inflation := if params.realMode then 0 else params.expenseInflation
      params.philanthropyFixedNow * (1 + inflation) ^ yearIndex

/-- simulation.ts `sumOneOffs`: (inflows, outflows) of the events whose
`year` equals `yearIndex`. -/
def sumOneOffs (params : Params) (yearIndex : ℕ) : ℚ × ℚ :=
  let events := params.oneOffs.filter (fun event => event.year == yearIndex)
  let inflows := (events.filter (fun event => decide (0 < event.amount))).foldl
    (fun acc curr => acc + curr.amount) 0
  let outflows := (events.filter (fun event => decide (event.amount < 0))).foldl
    (fun acc curr => acc + |curr.amount|) 0
  (inflows, outflows)

/-- simulation.ts `computeTaxes` (delegates to the tax engine). -/
def computeTaxes (params : Params) (baseForReturn : ℚ) (allocation : Triple)
    (publicDivYield publicRealized cashReturn privateRealized : ℚ) : ℚ :=
  computeHoldingCompanyTaxes params baseForReturn allocation
    publicDivYield publicRealized cashReturn privateRealized

/-- simulation.ts `computeLiquidTaxes` (delegates to the tax engine). -/
def computeLiquidTaxes (params : Params) (baseForReturn : ℚ) (allocation : Triple)
    (publicDivYield publicRealized cashReturn : ℚ) : ℚ :=
  computeLiquidHoldingCompanyTaxes params baseForReturn allocation
    publicDivYield publicRealized cashReturn

/-- One yearly balance-sheet row (types.ts `SimulationRow`). -/
structure SimulationRow where
  year : ℕ
  age : ℕ
  wealth : ℚ
  liquidWealth : ℚ
  expense : ℚ
  philanthropy : ℚ
  inflows : ℚ
  outflows : ℚ
  taxes : ℚ
  netReturn : ℚ
  liquidityYears : ℚ
  dividendIncome : ℚ
  interestIncome : ℚ
  publicRealizedGains : ℚ
  publicUnrealizedGains : ℚ
  privateRealizedGains : ℚ
  privateUnrealizedGains : ℚ
  grossReturnPct : ℚ
  netReturnPct : ℚ
  deriving DecidableEq

/-- The deterministic simulator's loop state: the three mutable variables of
`simulateDeterministic`. -/
structure SimState where
  wealth : ℚ
  liquidWealth : ℚ
  lastYearSpend : ℚ
  deriving DecidableEq

/-- One iteration of `simulateDeterministic`'s year loop: the emitted row and
the updated state. -/
def simStep (params : Params) (allocation : Triple)
    (privateCalls privateDistributions : List ℚ) (yearIndex : ℕ)
    (st : SimState) : SimulationRow × SimState :=
  let age := params.currentAge + yearIndex
  let expense := computeSpending params st.wealth yearIndex st.lastYearSpend
  let philanthropy := computePhilanthropy params st.wealth yearIndex
  let oneOffs := sumOneOffs params yearIndex
  let privateCall := privateCalls.getD yearIndex 0
  let privateDistribution := privateDistributions.getD yearIndex 0
  let totalOutflowsPreTax := expense + philanthropy + oneOffs.2 + privateCall
  let totalInflowsPreTax := oneOffs.1 + privateDistribution
  let baseForReturn :=
    max 0 (st.wealth - 0.5 * totalOutflowsPreTax + 0.5 * totalInflowsPreTax)
  let publicReturn := params.assetReturn.public
  let publicDivYield := params.publicDivYield
  let publicPriceReturn := max 0 (publicReturn - publicDivYield)
  let publicRealized := params.publicRealizationRate * publicPriceReturn
  let cashReturn := params.assetReturn.cash
  let privateReturn := params.assetReturn.priv
  let privateRealized := params.privateRealizationRate * max 0 privateReturn
  let grossReturn := allocation.public * publicReturn +
    allocation.priv * privateReturn + allocation.cash * cashReturn
  let taxes := computeTaxes params baseForReturn allocation
    publicDivYield publicRealized cashReturn privateRealized
  let liquidTaxes := computeLiquidTaxes params baseForReturn allocation
    publicDivYield publicRealized cashReturn
  let netReturn := baseForReturn * grossReturn - taxes
  let wealth := st.wealth + totalInflowsPreTax + netReturn - totalOutflowsPreTax
  let publicBase := baseForReturn * allocation.public
  let cashBase := baseForReturn * allocation.cash
  let privateBase := baseForReturn * allocation.priv
  let dividendIncome := publicBase * publicDivYield
  let interestIncome := cashBase * cashReturn
  let publicUnrealizedGains := publicBase * max 0 (publicPriceReturn - publicRealized)
  let publicRealizedGains := publicBase * publicRealized
  let privateUnrealizedGains := privateBase * max 0 (privateReturn - privateRealized)
  let privateRealizedGains := privateBase * privateRealized
  let liquidReturn := baseForReturn *
    (allocation.public * publicReturn + allocation.cash * cashReturn)
  let liquidAfter := st.liquidWealth + totalInflowsPreTax - privateCall -
    expense - philanthropy - oneOffs.2 + liquidReturn - liquidTaxes
  let liquidWealth := max 0 liquidAfter
  let liquidityYears := liquidWealth / max 1 (expense + philanthropy)
  let grossReturnPct := if 0 < baseForReturn then grossReturn else 0
  let netReturnPct := if 0 < baseForReturn then netReturn / baseForReturn else 0
  ({ year := yearIndex
     age := age
     wealth := wealth
     liquidWealth := liquidWealth
     expense := expense
     philanthropy := philanthropy
     inflows := totalInflowsPreTax
     outflows := totalOutflowsPreTax
     taxes := taxes
     netReturn := netReturn
     liquidityYears := liquidityYears
     dividendIncome := dividendIncome
     interestIncome := interestIncome
     publicRealizedGains := publicRealizedGains
     publicUnrealizedGains := publicUnrealizedGains
     privateRealizedGains := privateRealizedGains
     privateUnrealizedGains := privateUnrealizedGains
     grossReturnPct := grossReturnPct
     netReturnPct := netReturnPct },
   { wealth := wealth, liquidWealth := liquidWealth, lastYearSpend := expense })

/-- The year loop of `simulateDeterministic`, with the remaining number of
iterations as fuel: emits a row per year and stops right after the first row
whose wealth is ≤ 0 (the source's `break`). -/
def simLoop (params : Params) (allocation : Triple)
    (privateCalls privateDistributions : List ℚ) :
    ℕ → ℕ → SimState → List SimulationRow
  | 0, _, _ => []
  | fuel + 1, yearIndex, st =>
      let step := simStep params allocation privateCalls privateDistributions yearIndex st
      step.1 ::
        (if step.1.wealth ≤ 0 then []
         else simLoop params allocation privateCalls privateDistributions
           fuel (yearIndex + 1) step.2)

/-- `Math.max(1, deathAge - currentAge)`: the simulated horizon. -/
def yearsOf (params : Params) : ℕ := max 1 (params.deathAge - params.currentAge)

/-- types.ts `DeterministicResult`; `brokeYear` is `findIndex`'s value, so an
integer (−1 when no row has wealth ≤ 0). -/
structure DeterministicResult where
  rows : List SimulationRow
  brokeYear : ℤ
  deriving DecidableEq

/-- simulation.ts `simulateDeterministic` on a complete parameter record. -/
def simulateDeterministic (params : Params) : DeterministicResult :=
  let years := yearsOf params
  let allocation := normalizeAllocation params.assetAlloc
  let schedules := generatePrivateSchedules params.privCommit years
  let init : SimState :=
    { wealth := params.startWealth
      liquidWealth := params.startWealth * clamp params.liquidShare 0 1
      lastYearSpend := params.annualExpenseNow }
  let rows := simLoop params allocation schedules.1 schedules.2 (years + 1) 0 init
  let brokeYear : ℤ :=
    match rows.findIdx? (fun row => decide (row.wealth ≤ 0)) with
    | some i => (i : ℤ)
    | none => -1
  { rows := rows, brokeYear := brokeYear }

/-- simulation.ts `computePercentiles`: for each quantile `q`, sort the
values ascending and take `sorted[floor((q/100) * (length - 1))]`, falling
back to the last element and then to 0 (JavaScript's `?? 0`). -/
def computePercentiles (values : List ℚ) (quantiles : List ℚ) : List ℚ :=
  quantiles.map fun q =>
    let sorted := values.mergeSort (fun a b => decide (a ≤ b))
    let index := (⌊q / 100 * ((sorted.length : ℚ) - 1)⌋).toNat
    match sorted.get? index with
    | some v => v
    | none =>
        match sorted.get? (sorted.length - 1) with
        | some v => v
        | none => 0

/-- Percentile bands per year (types.ts `MonteCarloBands`). -/
structure MonteCarloBands where
  p5 : List ℚ
  p25 : List ℚ
  p50 : List ℚ
  p75 : List ℚ
  p95 : List ℚ
  deriving DecidableEq

/-- types.ts `MonteCarloResult`. -/
structure MonteCarloResult where
  paths : List (List ℚ)
  bands : MonteCarloBands
  ruinProbability : ℚ
  deriving DecidableEq

/-- The while-loop that pads a (possibly ruin-shortened) wealth trajectory to
the full horizon length by repeating its last value (0 when empty). -/
def padTrajectory (targetLen : ℕ) (trajectory : List ℚ) : List ℚ :=
  trajectory ++ List.replicate (targetLen - trajectory.length)
    (match trajectory.getLast? with
     | some v => v
     | none => 0)

/-- simulation.ts `simulateMonteCarlo`, with the ambient `boxMuller`
randomness made explicit: `draws i` is the triple of standard-normal variates
used for path `i`.  Everything else follows the source: each path perturbs
`assetReturn` by `assetVol × draw`, runs the deterministic simulator with the
normalized allocation, and pads the trajectory to `years + 1` entries. -/
def simulateMonteCarlo (params : Params) (draws : ℕ → Triple) : MonteCarloResult :=
  let allocation := normalizeAllocation params.assetAlloc
  let years := yearsOf params
  let numPaths := min params.numPaths MAX_MONTE_CARLO_PATHS
  let paths := (List.range numPaths).map fun pathIdx =>
    let z := draws pathIdx
    let randomized : Params :=
      { params with
        assetReturn :=
          { public := params.assetReturn.public + params.assetVol.public * z.public
            priv := params.assetReturn.priv + params.assetVol.priv * z.priv
            cash := params.assetReturn.cash + params.assetVol.cash * z.cash }
        assetAlloc := allocation }
    let result := simulateDeterministic randomized
    padTrajectory (years + 1) (result.rows.map (fun row => row.wealth))
  let perYear := (List.range (years + 1)).map fun yearIdx =>
    let values := paths.map (fun trajectory => trajectory.getD yearIdx 0)
    computePercentiles values [5, 25, 50, 75, 95]
  let bands : MonteCarloBands :=
    { p5 := perYear.map (fun ps => max 0 (ps.getD 0 0))
      p25 := perYear.map (fun ps => max 0 (ps.getD 1 0))
      p50 := perYear.map (fun ps => max 0 (ps.getD 2 0))
      p75 := perYear.map (fun ps => max 0 (ps.getD 3 0))
      p95 := perYear.map (fun ps => max 0 (ps.getD 4 0)) }
  let ruinCount :=
    (paths.filter (fun trajectory => trajectory.any (fun w => decide (w ≤ 0)))).length
  { paths := paths
    bands := bands
    ruinProbability := if numPaths = 0 then 0 else (ruinCount : ℚ) / (numPaths : ℚ) }

/-- types.ts `ReverseCalculationResult`. -/
structure ReverseCalculationResult where
  requiredStartingWealth : ℚ
  calculatedTerminalWealth : ℚ
  totalSpending : ℚ
  totalPhilanthropy : ℚ
  totalTaxes : ℚ
  totalReturns : ℚ
  rows : List SimulationRow
  deriving DecidableEq

/-- Terminal wealth of a deterministic run:
`result.rows[result.rows.length - 1]?.wealth ?? 0`. -/
def finalWealthOf (result : DeterministicResult) : ℚ :=
  match result.rows.getLast? with
  | some row => row.wealth
  | none => 0

/-- The binary-search loop of `calculateReverse`, with the remaining
iterations as fuel and the accumulated `bestGuess`/`bestResult` carried
explicitly. -/
def reverseLoop (params : Params) (targetTerminalWealth : ℚ) :
    ℕ → ℚ → ℚ → ℚ → Option DeterministicResult → ℚ × Option DeterministicResult
  | 0, _, _, bestGuess, bestResult => (bestGuess, bestResult)
  | iter + 1, low, high, _, _ =>
      let guess := (low + high) / 2
      let result := simulateDeterministic { params with startWealth := guess }
      let diff := finalWealthOf result - targetTerminalWealth
      if |diff| < 1000 then (guess, some result)
      else if 0 < diff then
        reverseLoop params targetTerminalWealth iter low guess guess (some result)
      else
        reverseLoop params targetTerminalWealth iter guess high guess (some result)

/-- simulation.ts `calculateReverse`: binary search over `startWealth` (at
most 50 iterations, tolerance 1000) for the desired terminal wealth. -/
def calculateReverse (params : Params) : ReverseCalculationResult :=
  let targetTerminalWealth := params.desiredTerminalWealth
  let maxIterations := 50
  let bounds : ℚ × ℚ :=
    if 0 < params.lifetimeSpendingTotal then
      let roughEstimate := params.lifetimeSpendingTotal + targetTerminalWealth
      (max 0 (roughEstimate * 0.5), max 1000000000 (roughEstimate * 2))
    else
      (0, 1000000000)
  let searched := reverseLoop params targetTerminalWealth maxIterations
    bounds.1 bounds.2 0 none
  let bestGuess := searched.1
  let bestResult :=
    match searched.2 with
    | some result => result
    | none => simulateDeterministic { params with startWealth := bestGuess }
  { requiredStartingWealth := bestGuess
    calculatedTerminalWealth := finalWealthOf bestResult
    totalSpending := bestResult.rows.foldl (fun acc row => acc + row.expense) 0
    totalPhilanthropy := bestResult.rows.foldl (fun acc row => acc + row.philanthropy) 0
    totalTaxes := bestResult.rows.foldl (fun acc row => acc + row.taxes) 0
    totalReturns := bestResult.rows.foldl (fun acc row => acc + row.netReturn) 0
    rows := bestResult.rows }

/-! ## Concrete scenario records used by witnesses and counterexamples -/

/-- A complete, schema-valid baseline scenario: custom jurisdiction with all
flat rates zero, no spending, no philanthropy, no one-offs, no private
commitments, a one-year horizon. -/
def sampleParams : Params :=
  { startWealth := 100
    liquidShare := 1
    currentAge := 50
    deathAge := 51
    spendingRule := .fixed
    annualExpenseNow := 0
    expenseInflation := 0
    spendPctWealth := 0
    guardrails := { targetPctWealth := 0.04, minChange := -0.05, maxChange := 0.05 }
    philanthropyMode := .fixed
    philanthropyFixedNow := 0
    philanthropyPercent := 0
    desiredTerminalWealth := 0
    lifetimeSpendingTotal := 0
    realMode := true
    taxJurisdiction := .custom
    taxInterest := 0
    taxDividends := 0
    taxRealizedGains := 0
    holdingCompanyStructure :=
      { publicDividendSource := .other
        privateDividendSource := .other
        usOwnershipPct := 0.1
        germanOwnershipPct := 0.1
        isVermoegensverwaltend := true
        germanTradeTaxRate := 0.14
        usCorporateTaxRate := 0.21 }
    assetAlloc := { public := 1, priv := 0, cash := 0 }
    assetReturn := { public := 0.01, priv := 0.01, cash := 0.01 }
    assetVol := { public := 0, priv := 0, cash := 0 }
    publicDivYield := 0
    publicRealizationRate := 0
    privateRealizationRate := 0
    privCommit :=
      { enabled := false
        totalCommitment := 0
        callYears := 1
        distLagYears := 0
        distYears := 1
        distMultiple := 0 }
    numPaths := 100
    oneOffs := [] }

/-! ## C1 — custom-jurisdiction tax total vs. the four per-bucket terms -/

/-- C1 counterexample: in the custom jurisdiction the full-portfolio entry
point does NOT always return the plain sum of the four per-bucket terms.
With a 100% interest rate tax, an all-cash allocation and cash return −1 the
four-term sum is −1 while the function returns 0 (the `Math.max(0, ·)`
floor binds). -/
theorem customTaxes_ne_sum_counterexample :
    ({ sampleParams with taxInterest := 1 } : Params).taxJurisdiction = .custom ∧
    computeHoldingCompanyTaxes { sampleParams with taxInterest := 1 } 1
        { public := 0, priv := 0, cash := 1 } 0 0 (-1) 0 = 0 ∧
    (1 * (0:ℚ)) * 0 * ({ sampleParams with taxInterest := 1 } : Params).taxDividends +
      (1 * (0:ℚ)) * 0 * ({ sampleParams with taxInterest := 1 } : Params).taxRealizedGains +
      (1 * (1:ℚ)) * (-1) * ({ sampleParams with taxInterest := 1 } : Params).taxInterest +
      (1 * (0:ℚ)) * 0 * ({ sampleParams with taxInterest := 1 } : Params).taxRealizedGains = -1 ∧
    computeHoldingCompanyTaxes { sampleParams with taxInterest := 1 } 1
        { public := 0, priv := 0, cash := 1 } 0 0 (-1) 0 ≠
      (1 * (0:ℚ)) * 0 * ({ sampleParams with taxInterest := 1 } : Params).taxDividends +
        (1 * (0:ℚ)) * 0 * ({ sampleParams with taxInterest := 1 } : Params).taxRealizedGains +
        (1 * (1:ℚ)) * (-1) * ({ sampleParams with taxInterest := 1 } : Params).taxInterest +
        (1 * (0:ℚ)) * 0 * ({ sampleParams with taxInterest := 1 } : Params).taxRealizedGains := by
  refine ⟨rfl, ?_, by norm_num, ?_⟩ <;>
    simp [computeHoldingCompanyTaxes, computeCustomTaxes, sampleParams]

/-- C1 (amended): in the custom jurisdiction the full-portfolio entry point
returns `max 0` of the sum of the four per-bucket terms; it equals the plain
sum exactly when that sum is non-negative (in particular the negative-cash
case can floor to 0). -/
theorem customTaxes_eq_max_zero_sum (params : Params)
    (h : params.taxJurisdiction = .custom) (baseForReturn : ℚ) (allocation : Triple)
    (publicDivYield publicRealized cashReturn privateRealized : ℚ) :
    computeHoldingCompanyTaxes params baseForReturn allocation
        publicDivYield publicRealized cashReturn privateRealized =
      max 0 (baseForReturn * allocation.public * publicDivYield * params.taxDividends +
        baseForReturn * allocation.public * publicRealized * params.taxRealizedGains +
        baseForReturn * allocation.cash * cashReturn * params.taxInterest +
        baseForReturn * allocation.priv * privateRealized * params.taxRealizedGains) ∧
    (0 ≤ baseForReturn * allocation.public * publicDivYield * params.taxDividends +
        baseForReturn * allocation.public * publicRealized * params.taxRealizedGains +
        baseForReturn * allocation.cash * cashReturn * params.taxInterest +
        baseForReturn * allocation.priv * privateRealized * params.taxRealizedGains →
      computeHoldingCompanyTaxes params baseForReturn allocation
          publicDivYield publicRealized cashReturn privateRealized =
        baseForReturn * allocation.public * publicDivYield * params.taxDividends +
          baseForReturn * allocation.public * publicRealized * params.taxRealizedGains +
          baseForReturn * allocation.cash * cashReturn * params.taxInterest +
          baseForReturn * allocation.priv * privateRealized * params.taxRealizedGains) := by
  have hmain : computeHoldingCompanyTaxes params baseForReturn allocation
      publicDivYield publicRealized cashReturn privateRealized =
      max 0 (baseForReturn * allocation.public * publicDivYield * params.taxDividends +
        baseForReturn * allocation.public * publicRealized * params.taxRealizedGains +
        baseForReturn * allocation.cash * cashReturn * params.taxInterest +
        baseForReturn * allocation.priv * privateRealized * params.taxRealizedGains) := by
    simp [computeHoldingCompanyTaxes, computeCustomTaxes, h]
  exact ⟨hmain, fun hsum => hmain.trans (max_eq_right hsum)⟩

/-- C1 witness: the amended equation evaluated on the concrete
counterexample input (the floor binds: result 0, sum −1). -/
theorem customTaxes_eq_max_zero_sum_witness :
    ({ sampleParams with taxInterest := 1 } : Params).taxJurisdiction = .custom ∧
    computeHoldingCompanyTaxes { sampleParams with taxInterest := 1 } 1
        { public := 0, priv := 0, cash := 1 } 0 0 (-1) 0 =
      max 0 (1 * (0:ℚ) * 0 * ({ sampleParams with taxInterest := 1 } : Params).taxDividends +
        1 * (0:ℚ) * 0 * ({ sampleParams with taxInterest := 1 } : Params).taxRealizedGains +
        1 * (1:ℚ) * (-1) * ({ sampleParams with taxInterest := 1 } : Params).taxInterest +
        1 * (0:ℚ) * 0 * ({ sampleParams with taxInterest := 1 } : Params).taxRealizedGains) :=
  ⟨rfl, (customTaxes_eq_max_zero_sum { sampleParams with taxInterest := 1 } rfl 1
    { public := 0, priv := 0, cash := 1 } 0 0 (-1) 0).1⟩

/-! ## C2 — trade tax on German dividends at ownership ≥ 15% -/

/-- For qualifying ownership (≥ 10%) the German dividend tax splits into the
corporate + solidarity part on the 5% taxable portion plus the trade-tax
summand of tax.ts lines 87–92. -/
theorem calculateGermanDividendTax_split (dividendAmount ownershipPct tradeTaxRate : ℚ)
    (isVermoegensverwaltend : Bool)
    (h : GERMAN_MIN_OWNERSHIP_FOR_EXEMPTION ≤ ownershipPct) :
    calculateGermanDividendTax dividendAmount ownershipPct tradeTaxRate
        isVermoegensverwaltend =
      dividendAmount * (1 - GERMAN_DIVIDEND_EXEMPTION_RATE) *
        (GERMAN_CORPORATE_TAX_RATE * (1 + GERMAN_SOLIDARITY_SURCHARGE)) +
        germanDividendTradeTaxPart dividendAmount ownershipPct tradeTaxRate
          isVermoegensverwaltend := by
  rw [calculateGermanDividendTax, if_neg (not_lt.mpr h), germanDividendTradeTaxPart]
  cases isVermoegensverwaltend <;> simp only [Bool.false_eq_true, if_false, if_true] <;>
    first
    | ring
    | (split <;> ring)

/-- C2 counterexample: ownership exactly 15%, non-asset-managing entity,
trade tax rate 14%, dividend 100.  The trade-tax summand is 0.7 (the rate on
the 5% taxable portion), not zero, and the total tax genuinely depends on
the trade-tax rate. -/
theorem germanDividendTradeTax_nonzero_counterexample :
    GERMAN_MIN_OWNERSHIP_FOR_TRADE_TAX_EXEMPTION ≤ (0.15 : ℚ) ∧
    germanDividendTradeTaxPart 100 0.15 0.14 false = 0.7 ∧
    (0.7 : ℚ) ≠ 0 ∧
    calculateGermanDividendTax 100 0.15 0.14 false = 1193 / 800 ∧
    calculateGermanDividendTax 100 0.15 0 false = 633 / 800 ∧
    calculateGermanDividendTax 100 0.15 0.14 false ≠
      calculateGermanDividendTax 100 0.15 0 false := by
  refine ⟨by norm_num [GERMAN_MIN_OWNERSHIP_FOR_TRADE_TAX_EXEMPTION], ?_, by norm_num, ?_, ?_, ?_⟩ <;>
    norm_num [germanDividendTradeTaxPart, calculateGermanDividendTax,
      calculateGermanCorporateTaxRate, GERMAN_MIN_OWNERSHIP_FOR_TRADE_TAX_EXEMPTION,
      GERMAN_MIN_OWNERSHIP_FOR_EXEMPTION, GERMAN_DIVIDEND_EXEMPTION_RATE,
      GERMAN_CORPORATE_TAX_RATE, GERMAN_SOLIDARITY_SURCHARGE]

/-- C2 (amended): for a non-asset-managing entity with ownership ≥ 15% the
trade-tax summand of the German dividend tax is not zero but the trade-tax
rate applied to the 5% taxable portion only, and the total dividend tax is
`dividend × 5% × (0.15 × 1.055 + tradeTaxRate)`. -/
theorem germanDividendTax_at_15pct_ownership (dividendAmount ownershipPct tradeTaxRate : ℚ)
    (h : GERMAN_MIN_OWNERSHIP_FOR_TRADE_TAX_EXEMPTION ≤ ownershipPct) :
    germanDividendTradeTaxPart dividendAmount ownershipPct tradeTaxRate false =
      dividendAmount * (1 - GERMAN_DIVIDEND_EXEMPTION_RATE) * tradeTaxRate ∧
    calculateGermanDividendTax dividendAmount ownershipPct tradeTaxRate false =
      dividendAmount * (1 - GERMAN_DIVIDEND_EXEMPTION_RATE) *
        (GERMAN_CORPORATE_TAX_RATE * (1 + GERMAN_SOLIDARITY_SURCHARGE) + tradeTaxRate) := by
  have h10 : GERMAN_MIN_OWNERSHIP_FOR_EXEMPTION ≤ ownershipPct := by
    refine le_trans ?_ h
    norm_num [GERMAN_MIN_OWNERSHIP_FOR_EXEMPTION, GERMAN_MIN_OWNERSHIP_FOR_TRADE_TAX_EXEMPTION]
  have hpart : germanDividendTradeTaxPart dividendAmount ownershipPct tradeTaxRate false =
      dividendAmount * (1 - GERMAN_DIVIDEND_EXEMPTION_RATE) * tradeTaxRate := by
    rw [germanDividendTradeTaxPart]
    simp [h]
  refine ⟨hpart, ?_⟩
  rw [calculateGermanDividendTax_split dividendAmount ownershipPct tradeTaxRate false h10, hpart]
  ring

/-- C2 witness: the amended statement at dividend 100, ownership 20%, trade
tax rate 14%. -/
theorem germanDividendTax_at_15pct_ownership_witness :
    GERMAN_MIN_OWNERSHIP_FOR_TRADE_TAX_EXEMPTION ≤ (0.2 : ℚ) ∧
    (germanDividendTradeTaxPart 100 0.2 0.14 false =
      100 * (1 - GERMAN_DIVIDEND_EXEMPTION_RATE) * 0.14 ∧
    calculateGermanDividendTax 100 0.2 0.14 false =
      100 * (1 - GERMAN_DIVIDEND_EXEMPTION_RATE) *
        (GERMAN_CORPORATE_TAX_RATE * (1 + GERMAN_SOLIDARITY_SURCHARGE) + 0.14)) :=
  ⟨by norm_num [GERMAN_MIN_OWNERSHIP_FOR_TRADE_TAX_EXEMPTION],
    germanDividendTax_at_15pct_ownership 100 0.2 0.14
      (by norm_num [GERMAN_MIN_OWNERSHIP_FOR_TRADE_TAX_EXEMPTION])⟩

/-! ## C3 — the tax engine never returns a negative tax -/

/-- C3: both public tax entry points return a non-negative value for every
jurisdiction and every input. -/
theorem holdingCompanyTaxes_nonneg (params : Params) (baseForReturn : ℚ)
    (allocation : Triple)
    (publicDivYield publicRealized cashReturn privateRealized : ℚ) :
    0 ≤ computeHoldingCompanyTaxes params baseForReturn allocation
        publicDivYield publicRealized cashReturn privateRealized ∧
    0 ≤ computeLiquidHoldingCompanyTaxes params baseForReturn allocation
        publicDivYield publicRealized cashReturn := by
  constructor
  · rw [computeHoldingCompanyTaxes]
    split
    · rw [computeCustomTaxes]
      exact le_max_left 0 _
    · exact le_max_left 0 _
  · rw [computeLiquidHoldingCompanyTaxes]
    split
    · rw [computeLiquidCustomTaxes]
      exact le_max_left 0 _
    · exact le_max_left 0 _

/-! ## C6 — allocation normalizer -/

/-- C6: for a non-negative weight triple, `normalizeAllocation` divides each
entry by the total (which then sums to exactly 1) when the total is non-zero,
and returns the input unchanged when the total is exactly 0. -/
theorem normalizeAllocation_spec (alloc : Triple)
    (hpub : 0 ≤ alloc.public) (hpriv : 0 ≤ alloc.priv) (hcash : 0 ≤ alloc.cash) :
    (alloc.public + alloc.priv + alloc.cash ≠ 0 →
      normalizeAllocation alloc =
        { public := alloc.public / (alloc.public + alloc.priv + alloc.cash)
          priv := alloc.priv / (alloc.public + alloc.priv + alloc.cash)
          cash := alloc.cash / (alloc.public + alloc.priv + alloc.cash) } ∧
      (normalizeAllocation alloc).public + (normalizeAllocation alloc).priv +
          (normalizeAllocation alloc).cash = 1) ∧
    (alloc.public + alloc.priv + alloc.cash = 0 → normalizeAllocation alloc = alloc) := by
  constructor
  · intro hne
    have heq : normalizeAllocation alloc =
        { public := alloc.public / (alloc.public + alloc.priv + alloc.cash)
          priv := alloc.priv / (alloc.public + alloc.priv + alloc.cash)
          cash := alloc.cash / (alloc.public + alloc.priv + alloc.cash) } := by
      rw [normalizeAllocation]
      simp [hne]
    refine ⟨heq, ?_⟩
    rw [heq]
    show alloc.public / _ + alloc.priv / _ + alloc.cash / _ = 1
    rw [div_add_div_same, div_add_div_same, div_self hne]
  · intro hzero
    rw [normalizeAllocation]
    simp [hzero]

/-- C6 witness: the normalizer on the strictly positive triple (1, 2, 5). -/
theorem normalizeAllocation_spec_witness :
    (0 ≤ (1:ℚ) ∧ 0 ≤ (2:ℚ) ∧ 0 ≤ (5:ℚ)) ∧
    (((1:ℚ) + 2 + 5 ≠ 0 →
      normalizeAllocation { public := 1, priv := 2, cash := 5 } =
        { public := (1:ℚ) / (1 + 2 + 5), priv := (2:ℚ) / (1 + 2 + 5),
          cash := (5:ℚ) / (1 + 2 + 5) } ∧
      (normalizeAllocation { public := 1, priv := 2, cash := 5 }).public +
          (normalizeAllocation { public := 1, priv := 2, cash := 5 }).priv +
          (normalizeAllocation { public := 1, priv := 2, cash := 5 }).cash = 1) ∧
    ((1:ℚ) + 2 + 5 = 0 → normalizeAllocation { public := 1, priv := 2, cash := 5 } =
      { public := 1, priv := 2, cash := 5 })) :=
  ⟨⟨by norm_num, by norm_num, by norm_num⟩,
    normalizeAllocation_spec { public := 1, priv := 2, cash := 5 }
      (by norm_num) (by norm_num) (by norm_num)⟩

/-! ## C5 — private commitment scheduler -/

/-- Reading a mapped range list out of bounds gives the default 0. -/
theorem getD_range_map (f : ℕ → ℚ) (n y : ℕ) :
    ((List.range n).map f).getD y 0 = if y < n then f y else 0 := by
  by_cases hy : y < n
  · rw [List.getD_eq_getElem?_getD]
    simp [List.getElem?_map, List.getElem?_range hy, hy]
  · have hlen : ((List.range n).map f).length ≤ y := by
      simpa [List.length_map, List.length_range] using not_lt.mp hy
    simp [List.getD_eq_getElem?_getD, List.getElem?_eq_none hlen, hy]

/-- C5: the scheduler returns two arrays of length `years + 1`; both all-zero
when disabled or the commitment is non-positive; otherwise the calls are
`totalCommitment / max(min(callYears, years+1), 1)` on the first
`min(callYears, years+1)` entries and 0 afterwards, and the distributions
spread the called capital × distMultiple equally over
`max(1, min(distYears, years+1−distLagYears))` years starting at
`distLagYears`; all non-zero distribution entries are equal; and for a
2,000,000 commitment called over 4 years on a 10-year horizon the calls are
exactly four entries of 500,000 followed by zeros. -/
theorem generatePrivateSchedules_spec (pc : PrivateCommitments) (years : ℕ) :
    ((generatePrivateSchedules pc years).1.length = years + 1 ∧
      (generatePrivateSchedules pc years).2.length = years + 1) ∧
    (pc.enabled = false ∨ pc.totalCommitment ≤ 0 →
      (generatePrivateSchedules pc years).1 = List.replicate (years + 1) 0 ∧
      (generatePrivateSchedules pc years).2 = List.replicate (years + 1) 0) ∧
    (pc.enabled = true → 0 < pc.totalCommitment →
      (∀ y : ℕ, (generatePrivateSchedules pc years).1.getD y 0 =
        if y < min pc.callYears (years + 1) then
          pc.totalCommitment / ((max (min pc.callYears (years + 1)) 1 : ℕ) : ℚ)
        else 0) ∧
      (∀ y : ℕ, (generatePrivateSchedules pc years).2.getD y 0 =
        if pc.distLagYears ≤ y ∧
            y < min (pc.distLagYears +
              max 1 (min pc.distYears (years + 1 - pc.distLagYears))) (years + 1) then
          pc.totalCommitment / ((max (min pc.callYears (years + 1)) 1 : ℕ) : ℚ) *
            ((min pc.callYears (years + 1) : ℕ) : ℚ) * pc.distMultiple /
            ((max 1 (min pc.distYears (years + 1 - pc.distLagYears)) : ℕ) : ℚ)
        else 0)) ∧
    (∀ a ∈ (generatePrivateSchedules pc years).2,
      ∀ b ∈ (generatePrivateSchedules pc years).2, a ≠ 0 → b ≠ 0 → a = b) ∧
    (generatePrivateSchedules
        { enabled := true, totalCommitment := 2000000, callYears := 4,
          distLagYears := 2, distYears := 4, distMultiple := 2 } 10).1 =
      [500000, 500000, 500000, 500000, 0, 0, 0, 0, 0, 0, 0] := by
  have hconc : (generatePrivateSchedules
      { enabled := true, totalCommitment := 2000000, callYears := 4,
        distLagYears := 2, distYears := 4, distMultiple := 2 } 10).1 =
      [500000, 500000, 500000, 500000, 0, 0, 0, 0, 0, 0, 0] := by
    rw [generatePrivateSchedules]
    norm_num
    rw [show List.range 11 = [0, 1, 2, 3, 4, 5, 6, 7, 8, 9, 10] from rfl]
    simp
  by_cases hdis : pc.enabled = false ∨ pc.totalCommitment ≤ 0
  · have hpair : generatePrivateSchedules pc years =
        (List.replicate (years + 1) 0, List.replicate (years + 1) 0) := by
      rw [generatePrivateSchedules, if_pos hdis]
    refine ⟨?_, fun _ => ?_, fun hen hpos => ?_, fun a ha b hb hna hnb => ?_, hconc⟩
    · rw [hpair]
      simp
    · rw [hpair]
      exact ⟨rfl, rfl⟩
    · rcases hdis with hdis | hdis
      · rw [hen] at hdis
        exact absurd hdis (by simp)
      · exact absurd hdis (not_le.mpr hpos)
    · rw [hpair] at ha
      exact absurd (List.eq_of_mem_replicate ha) hna
  · have hpair : generatePrivateSchedules pc years =
        ((List.range (years + 1)).map
          (fun year => if year < min pc.callYears (years + 1) then
            pc.totalCommitment / ((max (min pc.callYears (years + 1)) 1 : ℕ) : ℚ)
          else 0),
        (List.range (years + 1)).map
          (fun y => if pc.distLagYears ≤ y ∧
              y < min (pc.distLagYears +
                max 1 (min pc.distYears (years + 1 - pc.distLagYears))) (years + 1) then
            pc.totalCommitment / ((max (min pc.callYears (years + 1)) 1 : ℕ) : ℚ) *
              ((min pc.callYears (years + 1) : ℕ) : ℚ) * pc.distMultiple /
              ((max 1 (min pc.distYears (years + 1 - pc.distLagYears)) : ℕ) : ℚ)
          else 0)) := by
      rw [generatePrivateSchedules, if_neg hdis]
    have h1 : (generatePrivateSchedules pc years).1 =
        (List.range (years + 1)).map
          (fun year => if year < min pc.callYears (years + 1) then
            pc.totalCommitment / ((max (min pc.callYears (years + 1)) 1 : ℕ) : ℚ)
          else 0) := by
      rw [hpair]
    have h2 : (generatePrivateSchedules pc years).2 =
        (List.range (years + 1)).map
          (fun y => if pc.distLagYears ≤ y ∧
              y < min (pc.distLagYears +
                max 1 (min pc.distYears (years + 1 - pc.distLagYears))) (years + 1) then
            pc.totalCommitment / ((max (min pc.callYears (years + 1)) 1 : ℕ) : ℚ) *
              ((min pc.callYears (years + 1) : ℕ) : ℚ) * pc.distMultiple /
              ((max 1 (min pc.distYears (years + 1 - pc.distLagYears)) : ℕ) : ℚ)
          else 0) := by
      rw [hpair]
    refine ⟨?_, fun h => absurd h hdis, fun hen hpos => ⟨fun y => ?_, fun y => ?_⟩,
      fun a ha b hb hna hnb => ?_, hconc⟩
    · rw [h1, h2]
      simp
    · rw [h1, getD_range_map]
      by_cases hy : y < years + 1
      · rw [if_pos hy]
      · rw [if_neg hy, if_neg (by omega)]
    · rw [h2, getD_range_map]
      by_cases hy : y < years + 1
      · rw [if_pos hy]
      · rw [if_neg hy, if_neg (by omega)]
    · rw [h2] at ha hb
      obtain ⟨ya, -, hya⟩ := List.mem_map.mp ha
      obtain ⟨yb, -, hyb⟩ := List.mem_map.mp hb
      by_cases hca : pc.distLagYears ≤ ya ∧
          ya < min (pc.distLagYears +
            max 1 (min pc.distYears (years + 1 - pc.distLagYears))) (years + 1)
      · by_cases hcb : pc.distLagYears ≤ yb ∧
            yb < min (pc.distLagYears +
              max 1 (min pc.distYears (years + 1 - pc.distLagYears))) (years + 1)
        · simp only [hca, hcb, if_true, and_self] at hya hyb
          rw [← hya, ← hyb]
        · simp only [hcb, if_false] at hyb
          exact absurd hyb.symm hnb
      · simp only [hca, if_false] at hya
        exact absurd hya.symm hna

/-! ## Loop lemmas for the deterministic simulator -/

/-- The state returned by a step carries the same wealth as the emitted row. -/
theorem simStep_snd_wealth (params : Params) (allocation : Triple)
    (privateCalls privateDistributions : List ℚ) (yearIndex : ℕ) (st : SimState) :
    (simStep params allocation privateCalls privateDistributions yearIndex st).2.wealth =
      (simStep params allocation privateCalls privateDistributions yearIndex st).1.wealth := rfl

/-- Every emitted row's liquid wealth is the `max 0` floor, hence
non-negative; the liquidity runway divides it by a denominator ≥ 1, hence is
non-negative too. -/
theorem simStep_liquid_nonneg (params : Params) (allocation : Triple)
    (privateCalls privateDistributions : List ℚ) (yearIndex : ℕ) (st : SimState) :
    0 ≤ (simStep params allocation privateCalls privateDistributions yearIndex st).1.liquidWealth ∧
    0 ≤ (simStep params allocation privateCalls privateDistributions yearIndex st).1.liquidityYears := by
  constructor
  · exact le_max_left 0 _
  · exact div_nonneg (le_max_left 0 _) (le_trans zero_le_one (le_max_left 1 _))

/-- In the year loop, every row but the last has strictly positive wealth
(the loop breaks immediately after emitting a non-positive row). -/
theorem simLoop_prefix_pos (params : Params) (allocation : Triple)
    (privateCalls privateDistributions : List ℚ) :
    ∀ (fuel yearIndex : ℕ) (st : SimState) (j : ℕ) (r : SimulationRow),
      (simLoop params allocation privateCalls privateDistributions
        fuel yearIndex st)[j]? = some r →
      j + 1 < (simLoop params allocation privateCalls privateDistributions
        fuel yearIndex st).length →
      0 < r.wealth := by
  intro fuel
  induction fuel with
  | zero =>
      intro yearIndex st j r hr hj
      simp [simLoop] at hj
  | succ n ih =>
      intro yearIndex st j r hr hj
      simp only [simLoop] at hr hj
      by_cases hw : (simStep params allocation privateCalls privateDistributions
          yearIndex st).1.wealth ≤ 0
      · rw [if_pos hw] at hj
        simp at hj
      · rw [if_neg hw] at hr hj
        cases j with
        | zero =>
            rw [List.getElem?_cons_zero, Option.some.injEq] at hr
            rw [← hr]
            exact not_le.mp hw
        | succ k =>
            rw [List.getElem?_cons_succ] at hr
            rw [List.length_cons, Nat.add_lt_add_iff_right] at hj
            exact ih (yearIndex + 1)
              (simStep params allocation privateCalls privateDistributions yearIndex st).2
              k r hr hj

/-- If every emitted row keeps strictly positive wealth, the loop never
breaks early and uses up all its fuel: exactly `fuel` rows. -/
theorem simLoop_length_full (params : Params) (allocation : Triple)
    (privateCalls privateDistributions : List ℚ) :
    ∀ (fuel yearIndex : ℕ) (st : SimState),
      (∀ r ∈ simLoop params allocation privateCalls privateDistributions
        fuel yearIndex st, 0 < r.wealth) →
      (simLoop params allocation privateCalls privateDistributions
        fuel yearIndex st).length = fuel := by
  intro fuel
  induction fuel with
  | zero =>
      intro yearIndex st _
      simp [simLoop]
  | succ n ih =>
      intro yearIndex st hall
      simp only [simLoop] at hall ⊢
      have hw : ¬ (simStep params allocation privateCalls privateDistributions
          yearIndex st).1.wealth ≤ 0 :=
        not_le.mpr (hall _ (List.mem_cons_self _ _))
      rw [if_neg hw] at hall ⊢
      rw [List.length_cons, ih (yearIndex + 1)
        (simStep params allocation privateCalls privateDistributions yearIndex st).2
        (fun r hr => hall r (List.mem_cons_of_mem _ hr))]

/-- Every row the loop emits has a non-negative liquid wealth and liquidity
runway. -/
theorem simLoop_liquid_nonneg (params : Params) (allocation : Triple)
    (privateCalls privateDistributions : List ℚ) :
    ∀ (fuel yearIndex : ℕ) (st : SimState),
      ∀ r ∈ simLoop params allocation privateCalls privateDistributions
        fuel yearIndex st, 0 ≤ r.liquidWealth ∧ 0 ≤ r.liquidityYears := by
  intro fuel
  induction fuel with
  | zero =>
      intro yearIndex st r hr
      simp [simLoop] at hr
  | succ n ih =>
      intro yearIndex st r hr
      simp only [simLoop] at hr
      rcases List.mem_cons.mp hr with hr | hr
      · rw [hr]
        exact simStep_liquid_nonneg params allocation privateCalls
          privateDistributions yearIndex st
      · by_cases hw : (simStep params allocation privateCalls privateDistributions
            yearIndex st).1.wealth ≤ 0
        · rw [if_pos hw] at hr
          simp at hr
        · rw [if_neg hw] at hr
          exact ih (yearIndex + 1) _ r hr

/-- Reading a zero-filled replicate list (a disabled private schedule) at any
index gives 0. -/
theorem getD_replicate_zero (n i : ℕ) : (List.replicate n (0 : ℚ)).getD i 0 = 0 := by
  induction n generalizing i with
  | zero => simp
  | succ m ih =>
      cases i with
      | zero => simp [List.replicate]
      | succ k => simpa [List.replicate] using ih k

/-- Unfolding: the rows of a deterministic run are the year loop started at
year 0 from the initial state, with fuel for `years + 1` iterations. -/
theorem simulateDeterministic_rows (p : Params) :
    (simulateDeterministic p).rows =
      simLoop p (normalizeAllocation p.assetAlloc)
        (generatePrivateSchedules p.privCommit (yearsOf p)).1
        (generatePrivateSchedules p.privCommit (yearsOf p)).2
        (yearsOf p + 1) 0
        { wealth := p.startWealth
          liquidWealth := p.startWealth * clamp p.liquidShare 0 1
          lastYearSpend := p.annualExpenseNow } := rfl

/-- Unfolding: `brokeYear` is `findIndex`'s result on the emitted rows. -/
theorem simulateDeterministic_brokeYear (p : Params) :
    (simulateDeterministic p).brokeYear =
      match (simulateDeterministic p).rows.findIdx? (fun row => decide (row.wealth ≤ 0)) with
      | some i => (i : ℤ)
      | none => -1 := rfl

/-! ## C4 — row positivity, brokeYear and horizon length -/

/-- C4: every row except possibly the last has strictly positive wealth;
`brokeYear = -1` exactly when no row is non-positive; a non-negative
`brokeYear` is the index of the first row with wealth ≤ 0; and if no row
ever goes non-positive the loop emits exactly `years + 1` rows. -/
theorem simulateDeterministic_rows_brokeYear (p : Params) :
    (∀ (j : ℕ) (r : SimulationRow), (simulateDeterministic p).rows[j]? = some r →
      j + 1 < (simulateDeterministic p).rows.length → 0 < r.wealth) ∧
    ((simulateDeterministic p).brokeYear = -1 ↔
      ∀ row ∈ (simulateDeterministic p).rows, 0 < row.wealth) ∧
    (∀ k : ℕ, (simulateDeterministic p).brokeYear = (k : ℤ) →
      ∃ hk : k < (simulateDeterministic p).rows.length,
        (((simulateDeterministic p).rows.get ⟨k, hk⟩).wealth ≤ 0 ∧
        ∀ (j : ℕ) (hj : j < (simulateDeterministic p).rows.length), j < k →
          0 < (((simulateDeterministic p).rows.get ⟨j, hj⟩).wealth))) ∧
    ((∀ row ∈ (simulateDeterministic p).rows, 0 < row.wealth) →
      (simulateDeterministic p).rows.length = yearsOf p + 1) := by
  refine ⟨?_, ⟨?_, ?_⟩, ?_, ?_⟩
  · intro j r hr hj
    rw [simulateDeterministic_rows] at hr hj
    exact simLoop_prefix_pos p (normalizeAllocation p.assetAlloc) _ _ _ 0 _ j r hr hj
  · intro hbr row hmem
    rw [simulateDeterministic_brokeYear] at hbr
    cases hfi : (simulateDeterministic p).rows.findIdx?
        (fun row => decide (row.wealth ≤ 0)) with
    | some i =>
        rw [hfi] at hbr
        have hcast : (i : ℤ) = -1 := hbr
        omega
    | none =>
        have hfalse := List.findIdx?_eq_none_iff.mp hfi row hmem
        simpa using hfalse
  · intro hall
    rw [simulateDeterministic_brokeYear]
    have hfi : (simulateDeterministic p).rows.findIdx?
        (fun row => decide (row.wealth ≤ 0)) = none :=
      List.findIdx?_eq_none_iff.mpr
        (fun row hmem => by simpa using not_le.mpr (hall row hmem))
    rw [hfi]
  · intro k hbk
    rw [simulateDeterministic_brokeYear] at hbk
    cases hfi : (simulateDeterministic p).rows.findIdx?
        (fun row => decide (row.wealth ≤ 0)) with
    | none =>
        rw [hfi] at hbk
        have hcast : (-1 : ℤ) = (k : ℤ) := hbk
        omega
    | some i =>
        rw [hfi] at hbk
        have hcast : (i : ℤ) = (k : ℤ) := hbk
        have hik : i = k := by omega
        subst hik
        obtain ⟨hlt, hfind⟩ := List.findIdx?_eq_some_iff_findIdx_eq.mp hfi
        refine ⟨hlt, ?_, ?_⟩
        · have hget := @List.findIdx_getElem _ (fun row => decide (row.wealth ≤ 0))
            (simulateDeterministic p).rows (hfind ▸ hlt)
          rw [List.get_eq_getElem]
          simp only [hfind] at hget
          simpa using hget
        · intro j hj hjk
          have hnot := @List.not_of_lt_findIdx _ (fun row => decide (row.wealth ≤ 0))
            (simulateDeterministic p).rows j (hfind ▸ hjk)
          rw [List.get_eq_getElem]
          simpa using hnot
  · intro hall
    rw [simulateDeterministic_rows] at hall ⊢
    exact simLoop_length_full p (normalizeAllocation p.assetAlloc) _ _ _ 0 _ hall

/-! ## C10 — liquid wealth and liquidity runway are never negative -/

/-- C10: the liquid ledger is floored at zero before being recorded, so every
row's `liquidWealth` is ≥ 0, and consequently every row's `liquidityYears`
(liquid wealth over a denominator of at least 1) is ≥ 0 as well. -/
theorem simulateDeterministic_liquid_nonneg (p : Params) :
    (∀ row ∈ (simulateDeterministic p).rows, 0 ≤ row.liquidWealth) ∧
    (∀ row ∈ (simulateDeterministic p).rows, 0 ≤ row.liquidityYears) := by
  constructor <;> intro row hmem <;> rw [simulateDeterministic_rows] at hmem
  · exact (simLoop_liquid_nonneg p (normalizeAllocation p.assetAlloc) _ _ _ 0 _ row hmem).1
  · exact (simLoop_liquid_nonneg p (normalizeAllocation p.assetAlloc) _ _ _ 0 _ row hmem).2

/-! ## C7 — wealth monotonicity under zero flows -/

/-- Fixed-rule spending with a zero base expense is zero in every year. -/
theorem computeSpending_zero (p : Params) (hrule : p.spendingRule = .fixed)
    (hexp : p.annualExpenseNow = 0) (w : ℚ) (i : ℕ) (l : ℚ) :
    computeSpending p w i l = 0 := by
  simp [computeSpending, hrule, hexp]

/-- Fixed-mode philanthropy with a zero base amount is zero in every year. -/
theorem computePhilanthropy_zero (p : Params) (hmode : p.philanthropyMode = .fixed)
    (hfix : p.philanthropyFixedNow = 0) (w : ℚ) (i : ℕ) :
    computePhilanthropy p w i = 0 := by
  simp [computePhilanthropy, hmode, hfix]

/-- With no one-off events the aggregator returns (0, 0) for every year. -/
theorem sumOneOffs_nil (p : Params) (h : p.oneOffs = []) (i : ℕ) :
    sumOneOffs p i = (0, 0) := by
  simp [sumOneOffs, h]

/-- In the custom jurisdiction with all three flat rates zero, the full tax
is zero for any income decomposition. -/
theorem computeTaxes_zero (p : Params) (hj : p.taxJurisdiction = .custom)
    (hd : p.taxDividends = 0) (hi : p.taxInterest = 0) (hg : p.taxRealizedGains = 0)
    (baseForReturn : ℚ) (allocation : Triple)
    (publicDivYield publicRealized cashReturn privateRealized : ℚ) :
    computeTaxes p baseForReturn allocation
      publicDivYield publicRealized cashReturn privateRealized = 0 := by
  simp [computeTaxes, computeHoldingCompanyTaxes, computeCustomTaxes, hj, hd, hi, hg]

/-- Normalizing a non-negative weight triple keeps every entry non-negative. -/
theorem normalizeAllocation_nonneg (t : Triple) (h1 : 0 ≤ t.public)
    (h2 : 0 ≤ t.priv) (h3 : 0 ≤ t.cash) :
    0 ≤ (normalizeAllocation t).public ∧ 0 ≤ (normalizeAllocation t).priv ∧
    0 ≤ (normalizeAllocation t).cash := by
  rw [normalizeAllocation]
  split
  · exact ⟨h1, h2, h3⟩
  · have htot : 0 ≤ t.public + t.priv + t.cash := add_nonneg (add_nonneg h1 h2) h3
    exact ⟨div_nonneg h1 htot, div_nonneg h2 htot, div_nonneg h3 htot⟩

/-- With zero spending, zero philanthropy, no one-offs, zero custom tax
rates, no private flows this year, and a non-negative weighted gross return,
one simulator step cannot decrease wealth. -/
theorem simStep_wealth_mono (p : Params) (allocation : Triple)
    (privateCalls privateDistributions : List ℚ) (yearIndex : ℕ) (st : SimState)
    (hrule : p.spendingRule = .fixed) (hexp : p.annualExpenseNow = 0)
    (hmode : p.philanthropyMode = .fixed) (hfix : p.philanthropyFixedNow = 0)
    (hoo : p.oneOffs = [])
    (hj : p.taxJurisdiction = .custom) (hd : p.taxDividends = 0)
    (hi : p.taxInterest = 0) (hg : p.taxRealizedGains = 0)
    (hcall : privateCalls.getD yearIndex 0 = 0)
    (hdist : privateDistributions.getD yearIndex 0 = 0)
    (hgross : 0 ≤ allocation.public * p.assetReturn.public +
      allocation.priv * p.assetReturn.priv + allocation.cash * p.assetReturn.cash) :
    st.wealth ≤
      (simStep p allocation privateCalls privateDistributions yearIndex st).1.wealth := by
  have hmul : 0 ≤ max 0 st.wealth * (allocation.public * p.assetReturn.public +
      allocation.priv * p.assetReturn.priv + allocation.cash * p.assetReturn.cash) :=
    mul_nonneg (le_max_left 0 st.wealth) hgross
  simp only [simStep, computeSpending_zero p hrule hexp,
    computePhilanthropy_zero p hmode hfix, sumOneOffs_nil p hoo, hcall, hdist,
    computeTaxes_zero p hj hd hi hg]
  simp only [add_zero, zero_add, mul_zero, sub_zero]
  linarith [hmul]

/-- If no step can decrease wealth, then along the loop's rows the head is at
least the initial wealth and wealth is non-decreasing between consecutive
rows. -/
theorem simLoop_mono (p : Params) (allocation : Triple)
    (privateCalls privateDistributions : List ℚ)
    (hstep : ∀ (i : ℕ) (st : SimState),
      st.wealth ≤ (simStep p allocation privateCalls privateDistributions i st).1.wealth) :
    ∀ (fuel yearIndex : ℕ) (st : SimState),
      (∀ r, (simLoop p allocation privateCalls privateDistributions
        fuel yearIndex st)[0]? = some r → st.wealth ≤ r.wealth) ∧
      (∀ (j : ℕ) (a b : SimulationRow),
        (simLoop p allocation privateCalls privateDistributions
          fuel yearIndex st)[j]? = some a →
        (simLoop p allocation privateCalls privateDistributions
          fuel yearIndex st)[j + 1]? = some b →
        a.wealth ≤ b.wealth) := by
  intro fuel
  induction fuel with
  | zero =>
      intro yearIndex st
      constructor
      · intro r hr
        simp [simLoop] at hr
      · intro j a b ha _
        simp [simLoop] at ha
  | succ n ih =>
      intro yearIndex st
      constructor
      · intro r hr
        simp only [simLoop] at hr
        rw [List.getElem?_cons_zero, Option.some.injEq] at hr
        rw [← hr]
        exact hstep yearIndex st
      · intro j a b ha hb
        simp only [simLoop] at ha hb
        by_cases hw : (simStep p allocation privateCalls privateDistributions
            yearIndex st).1.wealth ≤ 0
        · rw [if_pos hw] at hb
          rw [List.getElem?_cons_succ] at hb
          simp at hb
        · rw [if_neg hw] at ha hb
          cases j with
          | zero =>
              rw [List.getElem?_cons_zero, Option.some.injEq] at ha
              rw [List.getElem?_cons_succ] at hb
              have hhead := (ih (yearIndex + 1)
                (simStep p allocation privateCalls privateDistributions yearIndex st).2).1
                b hb
              rw [← ha]
              exact hhead
          | succ k =>
              rw [List.getElem?_cons_succ] at ha hb
              exact (ih (yearIndex + 1)
                (simStep p allocation privateCalls privateDistributions yearIndex st).2).2
                k a b ha hb

/-- C7 (amended): with zero spending (fixed rule, zero base), zero
philanthropy (fixed mode, zero base), no one-off events, private commitments
disabled, custom jurisdiction with all three flat tax rates zero,
non-negative allocation weights, and strictly positive expected returns on
all three asset classes, the deterministic simulator's wealth sequence is
non-decreasing (the first row is at least `startWealth`). -/
theorem wealth_nondecreasing_zero_flows (p : Params)
    (hrule : p.spendingRule = .fixed) (hexp : p.annualExpenseNow = 0)
    (hmode : p.philanthropyMode = .fixed) (hfix : p.philanthropyFixedNow = 0)
    (hoo : p.oneOffs = []) (hpriv : p.privCommit.enabled = false)
    (hj : p.taxJurisdiction = .custom) (hd : p.taxDividends = 0)
    (hi : p.taxInterest = 0) (hg : p.taxRealizedGains = 0)
    (hap : 0 ≤ p.assetAlloc.public) (hav : 0 ≤ p.assetAlloc.priv)
    (hac : 0 ≤ p.assetAlloc.cash)
    (hrp : 0 < p.assetReturn.public) (hrv : 0 < p.assetReturn.priv)
    (hrc : 0 < p.assetReturn.cash) :
    (∀ r, (simulateDeterministic p).rows[0]? = some r → p.startWealth ≤ r.wealth) ∧
    (∀ (j : ℕ) (a b : SimulationRow), (simulateDeterministic p).rows[j]? = some a →
      (simulateDeterministic p).rows[j + 1]? = some b → a.wealth ≤ b.wealth) := by
  have hsched : generatePrivateSchedules p.privCommit (yearsOf p) =
      (List.replicate (yearsOf p + 1) 0, List.replicate (yearsOf p + 1) 0) := by
    rw [generatePrivateSchedules, if_pos (Or.inl hpriv)]
  have hcall : ∀ i : ℕ,
      (generatePrivateSchedules p.privCommit (yearsOf p)).1.getD i 0 = 0 := by
    intro i
    rw [hsched]
    exact getD_replicate_zero _ i
  have hdist : ∀ i : ℕ,
      (generatePrivateSchedules p.privCommit (yearsOf p)).2.getD i 0 = 0 := by
    intro i
    rw [hsched]
    exact getD_replicate_zero _ i
  have halloc := normalizeAllocation_nonneg p.assetAlloc hap hav hac
  have hgross : 0 ≤ (normalizeAllocation p.assetAlloc).public * p.assetReturn.public +
      (normalizeAllocation p.assetAlloc).priv * p.assetReturn.priv +
      (normalizeAllocation p.assetAlloc).cash * p.assetReturn.cash :=
    add_nonneg (add_nonneg (mul_nonneg halloc.1 hrp.le)
      (mul_nonneg halloc.2.1 hrv.le)) (mul_nonneg halloc.2.2 hrc.le)
  have hstep : ∀ (i : ℕ) (st : SimState), st.wealth ≤
      (simStep p (normalizeAllocation p.assetAlloc)
        (generatePrivateSchedules p.privCommit (yearsOf p)).1
        (generatePrivateSchedules p.privCommit (yearsOf p)).2 i st).1.wealth :=
    fun i st => simStep_wealth_mono p _ _ _ i st hrule hexp hmode hfix hoo hj hd hi hg
      (hcall i) (hdist i) hgross
  have hmono := simLoop_mono p (normalizeAllocation p.assetAlloc)
    (generatePrivateSchedules p.privCommit (yearsOf p)).1
    (generatePrivateSchedules p.privCommit (yearsOf p)).2 hstep
  constructor
  · intro r hr
    rw [simulateDeterministic_rows] at hr
    exact (hmono (yearsOf p + 1) 0 _).1 r hr
  · intro j a b ha hb
    rw [simulateDeterministic_rows] at ha hb
    exact (hmono (yearsOf p + 1) 0 _).2 j a b ha hb

/-- C7 counterexample: a scenario with zero spending, zero philanthropy, no
one-offs and strictly positive returns on all three asset classes whose very
first simulated year loses wealth: a 50% dividend yield taxed at 100%
(both values inside their documented ranges) makes year-0 taxes (50) exceed
the gross return (1), so the first row's wealth is 51 < startWealth = 100. -/
theorem wealth_decreasing_counterexample :
    ({ sampleParams with publicDivYield := 0.5, taxDividends := 1 } : Params).spendingRule
        = .fixed ∧
    ({ sampleParams with publicDivYield := 0.5, taxDividends := 1 } : Params).annualExpenseNow
        = 0 ∧
    ({ sampleParams with publicDivYield := 0.5, taxDividends := 1 } : Params).philanthropyMode
        = .fixed ∧
    ({ sampleParams with publicDivYield := 0.5, taxDividends := 1 } : Params).philanthropyFixedNow
        = 0 ∧
    ({ sampleParams with publicDivYield := 0.5, taxDividends := 1 } : Params).oneOffs = [] ∧
    0 < ({ sampleParams with publicDivYield := 0.5, taxDividends := 1 } : Params).assetReturn.public ∧
    0 < ({ sampleParams with publicDivYield := 0.5, taxDividends := 1 } : Params).assetReturn.priv ∧
    0 < ({ sampleParams with publicDivYield := 0.5, taxDividends := 1 } : Params).assetReturn.cash ∧
    ((simulateDeterministic
        { sampleParams with publicDivYield := 0.5, taxDividends := 1 }).rows.map
      (fun row => row.wealth))[0]? = some 51 ∧
    (51 : ℚ) <
      ({ sampleParams with publicDivYield := 0.5, taxDividends := 1 } : Params).startWealth := by
  refine ⟨rfl, rfl, rfl, rfl, rfl, by norm_num [sampleParams], by norm_num [sampleParams],
    by norm_num [sampleParams], ?_, by norm_num [sampleParams]⟩
  simp only [simulateDeterministic, yearsOf, simLoop, simStep, sampleParams,
    normalizeAllocation, generatePrivateSchedules, clamp, computeSpending,
    computePhilanthropy, sumOneOffs, computeTaxes, computeLiquidTaxes,
    computeHoldingCompanyTaxes, computeCustomTaxes, computeLiquidHoldingCompanyTaxes,
    computeLiquidCustomTaxes]
  norm_num

/-- C7 witness: the amended monotonicity statement on the baseline scenario
(zero rates, zero flows, strictly positive returns). -/
theorem wealth_nondecreasing_zero_flows_witness :
    (sampleParams.spendingRule = .fixed ∧ sampleParams.annualExpenseNow = 0 ∧
      sampleParams.philanthropyMode = .fixed ∧ sampleParams.philanthropyFixedNow = 0 ∧
      sampleParams.oneOffs = [] ∧ sampleParams.privCommit.enabled = false ∧
      sampleParams.taxJurisdiction = .custom ∧ sampleParams.taxDividends = 0 ∧
      sampleParams.taxInterest = 0 ∧ sampleParams.taxRealizedGains = 0 ∧
      0 ≤ sampleParams.assetAlloc.public ∧ 0 ≤ sampleParams.assetAlloc.priv ∧
      0 ≤ sampleParams.assetAlloc.cash ∧ 0 < sampleParams.assetReturn.public ∧
      0 < sampleParams.assetReturn.priv ∧ 0 < sampleParams.assetReturn.cash) ∧
    ((∀ r, (simulateDeterministic sampleParams).rows[0]? = some r →
        sampleParams.startWealth ≤ r.wealth) ∧
      (∀ (j : ℕ) (a b : SimulationRow),
        (simulateDeterministic sampleParams).rows[j]? = some a →
        (simulateDeterministic sampleParams).rows[j + 1]? = some b →
        a.wealth ≤ b.wealth)) :=
  ⟨⟨rfl, rfl, rfl, rfl, rfl, rfl, rfl, rfl, rfl, rfl,
    by norm_num [sampleParams], by norm_num [sampleParams], by norm_num [sampleParams],
    by norm_num [sampleParams], by norm_num [sampleParams], by norm_num [sampleParams]⟩,
   wealth_nondecreasing_zero_flows sampleParams rfl rfl rfl rfl rfl rfl rfl rfl rfl rfl
    (by norm_num [sampleParams]) (by norm_num [sampleParams]) (by norm_num [sampleParams])
    (by norm_num [sampleParams]) (by norm_num [sampleParams]) (by norm_num [sampleParams])⟩

/-! ## C8 — Monte Carlo ruin probability -/

/-- Unfolding: `ruinProbability` is the ruined-path count over the (capped)
path count, or 0 when no path was run. -/
theorem simulateMonteCarlo_ruin_def (p : Params) (draws : ℕ → Triple) :
    (simulateMonteCarlo p draws).ruinProbability =
      if min p.numPaths MAX_MONTE_CARLO_PATHS = 0 then 0 else
        (((simulateMonteCarlo p draws).paths.filter
            (fun trajectory => trajectory.any (fun w => decide (w ≤ 0)))).length : ℚ) /
          ((min p.numPaths MAX_MONTE_CARLO_PATHS : ℕ) : ℚ) := rfl

/-- C8: the Monte Carlo engine runs `min(numPaths, 2000)` paths;
`ruinProbability` is the number of generated trajectories containing a value
≤ 0 divided by that path count (0 when no path is run), and it always lies
in [0, 1]. -/
theorem simulateMonteCarlo_ruinProbability (p : Params) (draws : ℕ → Triple) :
    (simulateMonteCarlo p draws).paths.length = min p.numPaths MAX_MONTE_CARLO_PATHS ∧
    (simulateMonteCarlo p draws).ruinProbability =
      (if min p.numPaths MAX_MONTE_CARLO_PATHS = 0 then 0 else
        (((simulateMonteCarlo p draws).paths.filter
            (fun trajectory => decide (∃ w ∈ trajectory, w ≤ 0))).length : ℚ) /
          ((min p.numPaths MAX_MONTE_CARLO_PATHS : ℕ) : ℚ)) ∧
    0 ≤ (simulateMonteCarlo p draws).ruinProbability ∧
    (simulateMonteCarlo p draws).ruinProbability ≤ 1 := by
  have hfil : (simulateMonteCarlo p draws).paths.filter
      (fun trajectory => trajectory.any (fun w => decide (w ≤ 0))) =
      (simulateMonteCarlo p draws).paths.filter
        (fun trajectory => decide (∃ w ∈ trajectory, w ≤ 0)) := by
    apply List.filter_congr
    intro t _
    rw [Bool.eq_iff_iff]
    simp [List.any_eq_true]
  have hlen : (simulateMonteCarlo p draws).paths.length =
      min p.numPaths MAX_MONTE_CARLO_PATHS := by
    simp only [simulateMonteCarlo]
    simp
  refine ⟨hlen, ?_, ?_, ?_⟩
  · rw [simulateMonteCarlo_ruin_def, hfil]
  · rw [simulateMonteCarlo_ruin_def]
    split
    · exact le_refl 0
    · positivity
  · rw [simulateMonteCarlo_ruin_def]
    split
    · exact zero_le_one
    · rename_i hne
      rw [div_le_one (by exact_mod_cast Nat.pos_of_ne_zero hne)]
      have hcount : ((simulateMonteCarlo p draws).paths.filter
          (fun trajectory => trajectory.any (fun w => decide (w ≤ 0)))).length ≤
          min p.numPaths MAX_MONTE_CARLO_PATHS := by
        rw [← hlen]
        exact List.length_filter_le _ _
      exact_mod_cast hcount

/-! ## C9 — the reverse solver as the spec describes it -/

/-- Outcome of one spec-side binary-search iteration: either convergence at
the midpoint, or a narrowed interval together with the midpoint and its
simulation result. -/
inductive ReverseStep where
  | done : ℚ → DeterministicResult → ReverseStep
  | narrowed : ℚ → ℚ → ℚ → DeterministicResult → ReverseStep

/-- One iteration per §4.7 of the spec, following its words: take the
midpoint, run the full deterministic simulator on it, stop when the terminal
wealth is within 1,000 of the target, otherwise lower the high bound when
the terminal is too high and raise the low bound when it is too low. -/
def reverseSpecStep (params : Params) (target low high : ℚ) : ReverseStep :=
  let mid := (low + high) / 2
  let result := simulateDeterministic { params with startWealth := mid }
  let terminal := finalWealthOf result
  if |terminal - target| < 1000 then .done mid result
  else if 0 < terminal - target then .narrowed low mid mid result
  else .narrowed mid high mid result

/-- The spec-side search: at most the given number of iterations, returning
the last midpoint and its result (best effort) when the budget runs out. -/
def reverseSpecIterate (params : Params) (target : ℚ) :
    ℕ → ℚ → ℚ → ℚ → Option DeterministicResult → ℚ × Option DeterministicResult
  | 0, _, _, lastGuess, lastResult => (lastGuess, lastResult)
  | n + 1, low, high, _, _ =>
      match reverseSpecStep params target low high with
      | .done mid result => (mid, some result)
      | .narrowed lo hi mid result =>
          reverseSpecIterate params target n lo hi mid (some result)

/-- Unfolding of one iteration of the source loop (the `let` bindings
inlined). -/
theorem reverseLoop_succ (params : Params) (target : ℚ) (n : ℕ)
    (low high g : ℚ) (r : Option DeterministicResult) :
    reverseLoop params target (n + 1) low high g r =
      (if |finalWealthOf (simulateDeterministic
            { params with startWealth := (low + high) / 2 }) - target| < 1000 then
        ((low + high) / 2, some (simulateDeterministic
          { params with startWealth := (low + high) / 2 }))
      else if 0 < finalWealthOf (simulateDeterministic
            { params with startWealth := (low + high) / 2 }) - target then
        reverseLoop params target n low ((low + high) / 2) ((low + high) / 2)
          (some (simulateDeterministic { params with startWealth := (low + high) / 2 }))
      else
        reverseLoop params target n ((low + high) / 2) high ((low + high) / 2)
          (some (simulateDeterministic
            { params with startWealth := (low + high) / 2 }))) := rfl

/-- Unfolding of one spec-side step (the `let` bindings inlined). -/
theorem reverseSpecStep_def (params : Params) (target low high : ℚ) :
    reverseSpecStep params target low high =
      (if |finalWealthOf (simulateDeterministic
            { params with startWealth := (low + high) / 2 }) - target| < 1000 then
        .done ((low + high) / 2) (simulateDeterministic
          { params with startWealth := (low + high) / 2 })
      else if 0 < finalWealthOf (simulateDeterministic
            { params with startWealth := (low + high) / 2 }) - target then
        .narrowed low ((low + high) / 2) ((low + high) / 2)
          (simulateDeterministic { params with startWealth := (low + high) / 2 })
      else
        .narrowed ((low + high) / 2) high ((low + high) / 2)
          (simulateDeterministic
            { params with startWealth := (low + high) / 2 })) := rfl

/-- Unfolding of one spec-side search iteration. -/
theorem reverseSpecIterate_succ (params : Params) (target : ℚ) (n : ℕ)
    (low high g : ℚ) (r : Option DeterministicResult) :
    reverseSpecIterate params target (n + 1) low high g r =
      match reverseSpecStep params target low high with
      | .done mid result => (mid, some result)
      | .narrowed lo hi mid result =>
          reverseSpecIterate params target n lo hi mid (some result) := rfl

/-- The source's binary-search loop coincides with the spec-side search. -/
theorem reverseLoop_eq_spec (params : Params) (target : ℚ) :
    ∀ (n : ℕ) (low high lastGuess : ℚ) (lastResult : Option DeterministicResult),
      reverseLoop params target n low high lastGuess lastResult =
        reverseSpecIterate params target n low high lastGuess lastResult := by
  intro n
  induction n with
  | zero => intro low high g r; rfl
  | succ m ih =>
      intro low high g r
      rw [reverseLoop_succ, reverseSpecIterate_succ, reverseSpecStep_def]
      split_ifs with h1 h2
      · rfl
      · exact ih low ((low + high) / 2) ((low + high) / 2)
          (some (simulateDeterministic { params with startWealth := (low + high) / 2 }))
      · exact ih ((low + high) / 2) high ((low + high) / 2)
          (some (simulateDeterministic { params with startWealth := (low + high) / 2 }))

/-- The loop keeps `bestGuess` and `bestResult` in lock-step: whenever it
returns a result, it is the full simulation of the returned guess. -/
theorem reverseLoop_consistent (params : Params) (target : ℚ) :
    ∀ (n : ℕ) (low high lastGuess : ℚ) (lastResult : Option DeterministicResult),
      (∀ res, lastResult = some res →
        res = simulateDeterministic { params with startWealth := lastGuess }) →
      ∀ res, (reverseLoop params target n low high lastGuess lastResult).2 = some res →
        res = simulateDeterministic
          { params with
            startWealth := (reverseLoop params target n low high lastGuess lastResult).1 } := by
  intro n
  induction n with
  | zero =>
      intro low high g r hr res hres
      exact hr res hres
  | succ m ih =>
      intro low high g r hr res hres
      rw [reverseLoop_succ] at hres ⊢
      by_cases h1 : |finalWealthOf (simulateDeterministic
          { params with startWealth := (low + high) / 2 }) - target| < 1000
      · rw [if_pos h1] at hres ⊢
        exact (Option.some.inj hres).symm
      · rw [if_neg h1] at hres ⊢
        by_cases h2 : 0 < finalWealthOf (simulateDeterministic
            { params with startWealth := (low + high) / 2 }) - target
        · rw [if_pos h2] at hres ⊢
          exact ih low ((low + high) / 2) ((low + high) / 2) _
            (fun r' hr' => (Option.some.inj hr').symm) res hres
        · rw [if_neg h2] at hres ⊢
          exact ih ((low + high) / 2) high ((low + high) / 2) _
            (fun r' hr' => (Option.some.inj hr').symm) res hres

/-- C9: the reverse solver's returned starting wealth is the result of the
spec's binary search — at most 50 iterations; bounds low = 0, high = 10⁹,
replaced by `max(0, 0.5×(L+T))` and `max(10⁹, 2×(L+T))` when
`lifetimeSpendingTotal` L > 0 (T the desired terminal wealth); each
iteration runs the full deterministic simulator, stops when the terminal is
within 1,000 of the target and otherwise narrows toward it — and the
returned rows and terminal wealth are exactly the full simulation of the
returned starting wealth. -/
theorem calculateReverse_spec (p : Params) :
    (calculateReverse p).requiredStartingWealth =
      (reverseSpecIterate p p.desiredTerminalWealth 50
        (if 0 < p.lifetimeSpendingTotal then
          max 0 ((p.lifetimeSpendingTotal + p.desiredTerminalWealth) * 0.5) else 0)
        (if 0 < p.lifetimeSpendingTotal then
          max 1000000000 ((p.lifetimeSpendingTotal + p.desiredTerminalWealth) * 2)
         else 1000000000) 0 none).1 ∧
    (calculateReverse p).rows =
      (simulateDeterministic
        { p with startWealth := (calculateReverse p).requiredStartingWealth }).rows ∧
    (calculateReverse p).calculatedTerminalWealth =
      finalWealthOf (simulateDeterministic
        { p with startWealth := (calculateReverse p).requiredStartingWealth }) := by
  by_cases hL : 0 < p.lifetimeSpendingTotal
  · simp only [calculateReverse, if_pos hL]
    cases hS : (reverseLoop p p.desiredTerminalWealth 50
        (max 0 ((p.lifetimeSpendingTotal + p.desiredTerminalWealth) * 0.5))
        (max 1000000000 ((p.lifetimeSpendingTotal + p.desiredTerminalWealth) * 2))
        0 none).2 with
    | none =>
        refine ⟨?_, rfl, rfl⟩
        rw [reverseLoop_eq_spec]
    | some res =>
        have hcons := reverseLoop_consistent p p.desiredTerminalWealth 50
          (max 0 ((p.lifetimeSpendingTotal + p.desiredTerminalWealth) * 0.5))
          (max 1000000000 ((p.lifetimeSpendingTotal + p.desiredTerminalWealth) * 2))
          0 none (fun r hr => by cases hr) res hS
        refine ⟨?_, ?_, ?_⟩
        · rw [reverseLoop_eq_spec]
        · rw [hcons]
        · rw [hcons]
  · simp only [calculateReverse, if_neg hL]
    cases hS : (reverseLoop p p.desiredTerminalWealth 50 0 1000000000 0 none).2 with
    | none =>
        refine ⟨?_, rfl, rfl⟩
        rw [reverseLoop_eq_spec]
    | some res =>
        have hcons := reverseLoop_consistent p p.desiredTerminalWealth 50
          0 1000000000 0 none (fun r hr => by cases hr) res hS
        refine ⟨?_, ?_, ?_⟩
        · rw [reverseLoop_eq_spec]
        · rw [hcons]
        · rw [hcons]

end Whealthy
